import Mathlib

/-!
# Verification of the crosvm virtio-block device and virtio PCI transport core

Shallow embedding of the device stack found in:
  * `devices/src/virtio/block.rs` (block back-end: config blob, features,
    request parsing, request execution, worker queue processing, activation),
  * `devices/src/virtio/virtio_pci_device.rs` (PCI transport: BAR dispatch,
    ISR window, activation handshake),
  * `resources/src/system_allocator.rs` (IRQ allocation).

Machine integers are modelled as `Nat` with explicit `% 2 ^ w` where wrap
matters.  Fallible operations return `Except`/`Option`.  Guest memory is a
byte function together with a size; all accesses are bounds checked exactly
as the `GuestMemory` wrapper does in the source.
-/

/-- Errors returned by the guest-memory wrapper (`sys_util::GuestMemory`):
every access is bounds checked and a failed access yields a typed error. -/
inductive GuestMemoryError where
  | InvalidGuestAddress : Nat → GuestMemoryError
deriving Repr, DecidableEq

/-- Guest memory: a byte store of `size` bytes.  `bytes` is total; only
addresses below `size` are reachable through the checked accessors. -/
structure GuestMemory where
  size : Nat
  bytes : Nat → Nat

/-- Little-endian decoding of a byte list (least significant byte first). -/
def leDecode (l : List Nat) : Nat :=
  l.foldr (fun b acc => b % 256 + 256 * acc) 0

/-- The `n` bytes of guest memory starting at `addr` (unchecked view). -/
def GuestMemory.readBytes (mem : GuestMemory) (addr n : Nat) : List Nat :=
  (List.range n).map fun i => mem.bytes (addr + i) % 256

/-- `mem.read_obj_from_addr::<u32>(addr)`: little-endian u32 read with the
bounds check performed by the guest-memory wrapper. -/
def GuestMemory.read_obj_u32 (mem : GuestMemory) (addr : Nat) :
    Except GuestMemoryError Nat :=
  if addr + 4 ≤ mem.size then .ok (leDecode (mem.readBytes addr 4))
  else .error (.InvalidGuestAddress addr)

/-- `mem.read_obj_from_addr::<u64>(addr)`: little-endian u64 read with the
bounds check performed by the guest-memory wrapper. -/
def GuestMemory.read_obj_u64 (mem : GuestMemory) (addr : Nat) :
    Except GuestMemoryError Nat :=
  if addr + 8 ≤ mem.size then .ok (leDecode (mem.readBytes addr 8))
  else .error (.InvalidGuestAddress addr)

/-- `mem.write_obj_at_addr::<u8>(val, addr)`: one-byte store with bounds
check; this is the status-byte write used by the block worker. -/
def GuestMemory.write_obj_at_addr (mem : GuestMemory) (val addr : Nat) :
    Except GuestMemoryError GuestMemory :=
  if addr + 1 ≤ mem.size then
    .ok { mem with bytes := fun a => if a = addr then val % 256 else mem.bytes a }
  else .error (.InvalidGuestAddress addr)

/-- `mem.checked_offset(addr, offset)`: `None` when the sum would overflow
a 64-bit address (`ParseError::CheckedOffset` documents this case as
"offsets that would have overflowed"). -/
def GuestMemory.checked_offset (_mem : GuestMemory) (addr offset : Nat) : Option Nat :=
  if addr + offset < 2 ^ 64 then some (addr + offset) else none

/-! ## Block device configuration (`block.rs`) -/

/-- `virtio_blk_config` from `block.rs`: the packed little-endian
configuration blob, 60 bytes in total.  Field values are kept as `Nat`;
serialization truncates each field to its declared width. -/
structure virtio_blk_config where
  capacity : Nat
  size_max : Nat
  seg_max : Nat
  geometry_cylinders : Nat
  geometry_heads : Nat
  geometry_sectors : Nat
  blk_size : Nat
  physical_block_exp : Nat
  alignment_offset : Nat
  min_io_size : Nat
  opt_io_size : Nat
  writeback : Nat
  max_discard_sectors : Nat
  max_discard_seg : Nat
  discard_sector_alignment : Nat
  max_write_zeroes_sectors : Nat
  max_write_zeroes_seg : Nat
  write_zeroes_may_unmap : Nat
deriving Repr, DecidableEq

/-- The all-zero `Default::default()` configuration. -/
def virtio_blk_config.default : virtio_blk_config :=
  ⟨0, 0, 0, 0, 0, 0, 0, 0, 0, 0, 0, 0, 0, 0, 0, 0, 0, 0⟩

/-- Little-endian serialization of `v` into `n` bytes. -/
def leBytes (n v : Nat) : List Nat :=
  (List.range n).map fun i => v / 256 ^ i % 256

/-- Byte-for-byte serialization of `virtio_blk_config` in its `repr(C)`
packed layout (`DataInit::as_slice`): 60 bytes, little-endian fields,
3-byte pads after `writeback` and `write_zeroes_may_unmap`. -/
def configBytes (c : virtio_blk_config) : List Nat :=
  leBytes 8 c.capacity ++ leBytes 4 c.size_max ++ leBytes 4 c.seg_max ++
  leBytes 2 c.geometry_cylinders ++ [c.geometry_heads % 256, c.geometry_sectors % 256] ++
  leBytes 4 c.blk_size ++
  [c.physical_block_exp % 256, c.alignment_offset % 256] ++
  leBytes 2 c.min_io_size ++ leBytes 4 c.opt_io_size ++
  [c.writeback % 256] ++ [0, 0, 0] ++
  leBytes 4 c.max_discard_sectors ++ leBytes 4 c.max_discard_seg ++
  leBytes 4 c.discard_sector_alignment ++
  leBytes 4 c.max_write_zeroes_sectors ++ leBytes 4 c.max_write_zeroes_seg ++
  [c.write_zeroes_may_unmap % 256] ++ [0, 0, 0]

/-- `SECTOR_SHIFT = 9`, `SECTOR_SIZE = 512`. -/
def SECTOR_SHIFT : Nat := 9

/-- `build_config_space(disk_size)` from `block.rs`: capacity is the disk
size shifted right by `SECTOR_SHIFT` (truncating a non-sector-multiple
size); discard/write-zeroes limits are the hard-coded constants. -/
def build_config_space (disk_size : Nat) : virtio_blk_config :=
  { virtio_blk_config.default with
    capacity := disk_size >>> SECTOR_SHIFT
    max_discard_sectors := 2 ^ 32 - 1
    discard_sector_alignment := 128
    max_write_zeroes_sectors := 2 ^ 32 - 1
    write_zeroes_may_unmap := 1
    max_discard_seg := 1
    max_write_zeroes_seg := 1 }

/-! ## Disk, timer, and the block back-end structure -/

/-- The disk file beneath the block device: a byte store with a seek
position.  Writes past `size` grow the file, as for a host file. -/
structure Disk where
  bytes : Nat → Nat
  size : Nat
  pos : Nat

/-- `disk.seek(SeekFrom::Start(p))`. -/
def Disk.seekStart (d : Disk) (p : Nat) : Disk :=
  { d with pos := p }

/-- The worker's deferred-flush `TimerFd`; only its armed state matters. -/
structure TimerFd where
  armed : Bool
deriving Repr, DecidableEq

/-- The block back-end state (`struct Block` in `block.rs`).  `kill_evt`
and `disk_image` are option-holding fields drained at activation. -/
structure Block where
  kill_evt : Option Unit
  disk_image : Option Disk
  config_space : virtio_blk_config
  avail_features : Nat
  read_only : Bool

/-- `Block::new(disk_image, read_only)` from `block.rs`: seeks to the end
to learn the size, builds the config space, and assembles the available
features: always `FLUSH(9)`; `RO(5)` when read-only, otherwise
`DISCARD(13)` and `WRITE_ZEROES(14)`. -/
def Block.new (disk_image : Disk) (read_only : Bool) : Block :=
  let disk_size := disk_image.size
  let f0 : Nat := 2 ^ 9
  let avail_features : Nat :=
    if read_only then f0 ||| 2 ^ 5
    else (f0 ||| 2 ^ 13) ||| 2 ^ 14
  { kill_evt := none
    disk_image := some { disk_image with pos := disk_size }
    config_space := build_config_space disk_size
    avail_features := avail_features
    read_only := read_only }

/-- `Block::features(page)`: page 0 is the low 32 feature bits, page 1 the
high 32 bits (`as u32` casts of the `u64` bitmap), any other page 0. -/
def Block.features (b : Block) (page : Nat) : Nat :=
  if page = 0 then b.avail_features % 2 ^ 32
  else if page = 1 then b.avail_features / 2 ^ 32 % 2 ^ 32
  else 0

/-- `Block::read_config(offset, data)` from `block.rs`: no-op when
`offset` is at or past the end of the blob; otherwise, unless
`offset + data.len()` overflows a u64, copy the blob bytes
`[offset, min(offset+len, config_len))` into the front of `data`,
leaving the rest of `data` as it was. -/
def Block.read_config (b : Block) (offset : Nat) (data : List Nat) : List Nat :=
  let config_len : Nat := 60
  if offset ≥ config_len then data
  else if offset + data.length < 2 ^ 64 then
    let e := min (offset + data.length) config_len
    ((configBytes b.config_space).drop offset).take (e - offset) ++
      data.drop (e - offset)
  else data

/-! ## System allocator (`system_allocator.rs`) -/

/-- The IRQ-allocating part of `SystemAllocator`; `next_irq` is a `u32`. -/
structure SystemAllocator where
  next_irq : Nat
deriving Repr, DecidableEq

/-- `SystemAllocator::allocate_irq()`: `next_irq.checked_add(1)` succeeds
iff the incremented value still fits in a u32; on success the old value is
returned and the counter advances. -/
def SystemAllocator.allocate_irq (s : SystemAllocator) :
    Option (Nat × SystemAllocator) :=
  if s.next_irq + 1 < 2 ^ 32 then
    some (s.next_irq, { next_irq := s.next_irq + 1 })
  else none

/-- `n` successive `allocate_irq` calls, collecting the returned IRQs. -/
def SystemAllocator.allocate_irq_n (s : SystemAllocator) :
    Nat → Option (List Nat × SystemAllocator)
  | 0 => some ([], s)
  | n + 1 =>
    match s.allocate_irq with
    | none => none
    | some (irq, s') =>
      match s'.allocate_irq_n n with
      | none => none
      | some (irqs, s'') => some (irq :: irqs, s'')

/-! ## ISR window of the transport BAR (`virtio_pci_device.rs`) -/

/-- The ISR arm of `VirtioPciDevice::read_bar` (the branch for offsets in
`[ISR_CONFIG_BAR_OFFSET, ISR_CONFIG_BAR_OFFSET + ISR_CONFIG_SIZE)`):
`data[0] = interrupt_status.load() as u8` when `data` is non-empty.
Returns the filled buffer and the interrupt-status word after the read. -/
def VirtioPciDevice.read_bar_isr (interrupt_status : Nat) (data : List Nat) :
    List Nat × Nat :=
  match data with
  | [] => ([], interrupt_status)
  | _ :: rest => (interrupt_status % 256 :: rest, interrupt_status)

/-- The ISR arm of `VirtioPciDevice::write_bar`: write-to-clear, masking
out the written bits (`fetch_and(!(v as usize))` over a 64-bit word). -/
def VirtioPciDevice.write_bar_isr (interrupt_status : Nat) (data : List Nat) : Nat :=
  match data with
  | [] => interrupt_status
  | v :: _ => interrupt_status &&& ((2 ^ 64 - 1) ^^^ v % 256)

/-! ## Descriptor chains and request parsing (`block.rs`) -/

/-- One virtqueue descriptor as yielded to the block device: guest address,
length, and the write-only flag (`DescriptorChain::is_write_only`). -/
structure Desc where
  addr : Nat
  len : Nat
  write_only : Bool
deriving Repr, DecidableEq

/-- Modelled from the spec: the descriptor-chain iterator of the virtqueue
(`queue.rs`, outside the analysed sources) yields a head descriptor and the
`next`-linked tail, with chain length capped at the queue size, so a chain
is a finite list.  `index` is the head index reported to the used ring. -/
structure DescChain where
  index : Nat
  head : Desc
  rest : List Desc
deriving Repr, DecidableEq

/-- Modelled from the spec: `DescriptorChain::checked_new` (in `queue.rs`,
outside the analysed sources) only yields descriptors whose whole buffer
`[addr, addr+len)` lies inside guest memory. -/
def Desc.is_valid (mem : GuestMemory) (d : Desc) : Bool :=
  decide (d.addr + d.len ≤ mem.size)

/-- Every descriptor of the chain satisfies the iterator's bounds check. -/
def DescChain.all_valid (mem : GuestMemory) (c : DescChain) : Bool :=
  c.head.is_valid mem && c.rest.all fun d => d.is_valid mem

/-- `RequestType` from `block.rs`. -/
inductive RequestType where
  | In
  | Out
  | Flush
  | Discard
  | WriteZeroes
  | Unsupported : Nat → RequestType
deriving Repr, DecidableEq

/-- `ParseError` from `block.rs`. -/
inductive ParseError where
  | GuestMemory : GuestMemoryError → ParseError
  | CheckedOffset : Nat → Nat → ParseError
  | UnexpectedWriteOnlyDescriptor
  | UnexpectedReadOnlyDescriptor
  | DescriptorChainTooShort
  | DescriptorLengthTooSmall
deriving Repr, DecidableEq

/-- `request_type(mem, desc_addr)` from `block.rs` (named `request_type_of`
here to avoid the `Request.request_type` field accessor): u32 read at the
head descriptor's address, mapped to the request kind (any unknown value
is preserved). -/
def request_type_of (mem : GuestMemory) (desc_addr : Nat) :
    Except ParseError RequestType :=
  match mem.read_obj_u32 desc_addr with
  | .error e => .error (.GuestMemory e)
  | .ok t =>
    if t = 0 then .ok .In
    else if t = 1 then .ok .Out
    else if t = 4 then .ok .Flush
    else if t = 11 then .ok .Discard
    else if t = 13 then .ok .WriteZeroes
    else .ok (.Unsupported t)

/-- `sector(mem, desc_addr)` from `block.rs` (named `sector_of` here to
avoid the `Request.sector` field accessor): checked offset by 8 into the
header, then a u64 read. -/
def sector_of (mem : GuestMemory) (desc_addr : Nat) : Except ParseError Nat :=
  match mem.checked_offset desc_addr 8 with
  | none => .error (.CheckedOffset desc_addr 8)
  | some addr =>
    match mem.read_obj_u64 addr with
    | .error e => .error (.GuestMemory e)
    | .ok s => .ok s

/-- `virtio_blk_discard_write_zeroes`: the 16-byte discard/write-zeroes
segment `{sector: u64, num_sectors: u32, flags: u32}`. -/
structure virtio_blk_discard_write_zeroes where
  sector : Nat
  num_sectors : Nat
  flags : Nat
deriving Repr, DecidableEq

/-- `discard_write_zeroes_segment(mem, seg_addr)`: 16-byte packed read of
the segment, with the wrapper's bounds check. -/
def discard_write_zeroes_segment (mem : GuestMemory) (seg_addr : Nat) :
    Except ParseError virtio_blk_discard_write_zeroes :=
  if seg_addr + 16 ≤ mem.size then
    .ok ⟨leDecode (mem.readBytes seg_addr 8),
         leDecode (mem.readBytes (seg_addr + 8) 4),
         leDecode (mem.readBytes (seg_addr + 12) 4)⟩
  else .error (.GuestMemory (.InvalidGuestAddress seg_addr))

/-- `struct Request` from `block.rs`. -/
structure Request where
  request_type : RequestType
  sector : Nat
  data_addr : Nat
  data_len : Nat
  status_addr : Nat
  discard_write_zeroes_seg : Option virtio_blk_discard_write_zeroes
deriving Repr, DecidableEq

/-- `Request::parse_flush`: chain is `[head, status]`; status must be
write-only and at least one byte. -/
def Request.parse_flush (avail_desc : DescChain) (mem : GuestMemory) :
    Except ParseError Request :=
  match sector_of mem avail_desc.head.addr with
  | .error e => .error e
  | .ok sec =>
    match avail_desc.rest with
    | [] => .error .DescriptorChainTooShort
    | status_desc :: _ =>
      if !status_desc.write_only then .error .UnexpectedReadOnlyDescriptor
      else if status_desc.len < 1 then .error .DescriptorLengthTooSmall
      else .ok { request_type := .Flush, sector := sec, data_addr := 0,
                 data_len := 0, status_addr := status_desc.addr,
                 discard_write_zeroes_seg := none }

/-- `Request::parse_discard_write_zeroes`: chain is `[head, seg, status]`;
the segment is read-only and at least 16 bytes, the status write-only and
at least one byte. -/
def Request.parse_discard_write_zeroes (avail_desc : DescChain)
    (mem : GuestMemory) (req_type : RequestType) : Except ParseError Request :=
  match avail_desc.rest with
  | [] => .error .DescriptorChainTooShort
  | [_] => .error .DescriptorChainTooShort
  | seg_desc :: status_desc :: _ =>
    if seg_desc.write_only then .error .UnexpectedWriteOnlyDescriptor
    else if seg_desc.len < 16 then .error .DescriptorLengthTooSmall
    else
      match discard_write_zeroes_segment mem seg_desc.addr with
      | .error e => .error e
      | .ok seg =>
        if !status_desc.write_only then .error .UnexpectedReadOnlyDescriptor
        else if status_desc.len < 1 then .error .DescriptorLengthTooSmall
        else .ok { request_type := req_type, sector := 0, data_addr := 0,
                   data_len := 0, status_addr := status_desc.addr,
                   discard_write_zeroes_seg := some seg }

/-- `Request::parse_read_write`: chain is `[head, data, status]`; the data
descriptor's direction must match the request type, the status descriptor
must be write-only and at least one byte. -/
def Request.parse_read_write (avail_desc : DescChain) (mem : GuestMemory)
    (req_type : RequestType) : Except ParseError Request :=
  match sector_of mem avail_desc.head.addr with
  | .error e => .error e
  | .ok sec =>
    match avail_desc.rest with
    | [] => .error .DescriptorChainTooShort
    | [_] => .error .DescriptorChainTooShort
    | data_desc :: status_desc :: _ =>
      if data_desc.write_only && req_type = .Out then
        .error .UnexpectedWriteOnlyDescriptor
      else if !data_desc.write_only && req_type = .In then
        .error .UnexpectedReadOnlyDescriptor
      else if !status_desc.write_only then .error .UnexpectedReadOnlyDescriptor
      else if status_desc.len < 1 then .error .DescriptorLengthTooSmall
      else .ok { request_type := req_type, sector := sec,
                 data_addr := data_desc.addr, data_len := data_desc.len,
                 status_addr := status_desc.addr,
                 discard_write_zeroes_seg := none }

/-- `Request::parse`: the head must be readable; the request type selects
the branch. -/
def Request.parse (avail_desc : DescChain) (mem : GuestMemory) :
    Except ParseError Request :=
  if avail_desc.head.write_only then .error .UnexpectedWriteOnlyDescriptor
  else
    match request_type_of mem avail_desc.head.addr with
    | .error e => .error e
    | .ok .Flush => Request.parse_flush avail_desc mem
    | .ok .Discard => Request.parse_discard_write_zeroes avail_desc mem .Discard
    | .ok .WriteZeroes =>
      Request.parse_discard_write_zeroes avail_desc mem .WriteZeroes
    | .ok t => Request.parse_read_write avail_desc mem t

/-! ## Request execution (`block.rs`) -/

/-- `ExecuteError` from `block.rs` (payloads kept where they identify the
failing input). -/
inductive ExecuteError where
  | ArmingTimer
  | Flush
  | Read : Nat → Nat → Nat → GuestMemoryError → ExecuteError
  | Seek : Nat → ExecuteError
  | TimerFdErr
  | Write : Nat → Nat → Nat → GuestMemoryError → ExecuteError
  | DiscardWriteZeroes : Option Unit → Nat → Nat → Nat → ExecuteError
  | Unsupported : Nat → ExecuteError
deriving Repr, DecidableEq

/-- `ExecuteError::status`: `UNSUPP(2)` for an unsupported type, otherwise
`IOERR(1)`. -/
def ExecuteError.status : ExecuteError → Nat
  | .Unsupported _ => 2
  | _ => 1

/-- `VIRTIO_BLK_S_OK`. -/
def VIRTIO_BLK_S_OK : Nat := 0

/-- Disk write of `len` bytes taken from guest memory at `src` (the disk
side of `mem.write_from_memory`): bytes land at the current position, the
position advances, and the file grows if needed. -/
def Disk.writeFrom (d : Disk) (mem : GuestMemory) (src len : Nat) : Disk :=
  { d with
    bytes := fun i =>
      if d.pos ≤ i ∧ i < d.pos + len then mem.bytes (src + (i - d.pos)) % 256
      else d.bytes i
    size := max d.size (d.pos + len)
    pos := d.pos + len }

/-- Write-zeroes of `len` bytes at the current position
(`disk.write_zeroes(len)`). -/
def Disk.write_zeroes (d : Disk) (len : Nat) : Disk :=
  { d with
    bytes := fun i => if d.pos ≤ i ∧ i < d.pos + len then 0 else d.bytes i
    size := max d.size (d.pos + len)
    pos := d.pos + len }

/-- The discard/write-zeroes arm of `Request::execute`: flag validation
(`UNMAP(1)` allowed only for write-zeroes), then seek and a host
write-zeroes of `num_sectors << 9` bytes. -/
def Request.execute_discard_write_zeroes (req : Request) (disk0 : Disk)
    (flush_timer : TimerFd) (mem : GuestMemory) :
    Except ExecuteError (Nat × Disk × TimerFd × GuestMemory) :=
  match req.discard_write_zeroes_seg with
  | none => .ok (0, disk0, flush_timer, mem)
  | some seg =>
    let valid_flags : Nat := if req.request_type = .WriteZeroes then 1 else 0
    if seg.flags % 2 ^ 32 &&& ((2 ^ 32 - 1) ^^^ valid_flags) ≠ 0 then
      .error (.DiscardWriteZeroes none seg.sector seg.num_sectors seg.flags)
    else
      let disk1 := disk0.seekStart (seg.sector * 512 % 2 ^ 64)
      .ok (0, disk1.write_zeroes (seg.num_sectors * 512), flush_timer, mem)

/-- `Request::execute(disk, flush_timer, mem)` from `block.rs`: seek to
`sector << 9`, then
  * IN: copy `data_len` disk bytes into guest memory, report `data_len`;
  * OUT: copy `data_len` guest bytes onto the disk, arm the 60 s flush
    timer if it is not armed, fall through to report 0;
  * DISCARD / WRITE_ZEROES: validated host write-zeroes, report 0;
  * FLUSH: flush and clear the timer, report 0;
  * unsupported types report `ExecuteError::Unsupported`.
Guest-memory faults surface as `Read`/`Write` errors.  Disk seek, flush
and timer operations are modelled as always succeeding (their host
failure modes are outside the guest-visible state). -/
def Request.execute (req : Request) (disk : Disk) (flush_timer : TimerFd)
    (mem : GuestMemory) :
    Except ExecuteError (Nat × Disk × TimerFd × GuestMemory) :=
  let disk0 := disk.seekStart (req.sector * 512 % 2 ^ 64)
  match req.request_type with
  | .In =>
    if req.data_addr + req.data_len ≤ mem.size then
      let mem' :=
        { mem with bytes := fun a =>
            if req.data_addr ≤ a ∧ a < req.data_addr + req.data_len then
              disk0.bytes (disk0.pos + (a - req.data_addr)) % 256
            else mem.bytes a }
      .ok (req.data_len, { disk0 with pos := disk0.pos + req.data_len },
           flush_timer, mem')
    else
      .error (.Read req.data_addr req.data_len req.sector
        (.InvalidGuestAddress req.data_addr))
  | .Out =>
    if req.data_addr + req.data_len ≤ mem.size then
      let disk1 := disk0.writeFrom mem req.data_addr req.data_len
      let timer' := if flush_timer.armed then flush_timer else ⟨true⟩
      .ok (0, disk1, timer', mem)
    else
      .error (.Write req.data_addr req.data_len req.sector
        (.InvalidGuestAddress req.data_addr))
  | .Discard => req.execute_discard_write_zeroes disk0 flush_timer mem
  | .WriteZeroes => req.execute_discard_write_zeroes disk0 flush_timer mem
  | .Flush => .ok (0, disk0, ⟨false⟩, mem)
  | .Unsupported t => .error (.Unsupported t)

/-! ## Worker queue processing (`block.rs`) -/

/-- One iteration of the loop body of `Worker::process_queue`: parse the
chain; on success execute it, write the status byte (`OK` or the error's
status) through the guest-memory wrapper — the `.unwrap()` in the source
is modelled by returning `none` when that write fails — and record
`(head index, written len)`; on a parse error record written len 0 and
touch nothing. -/
def Worker.process_chain (mem : GuestMemory) (disk : Disk)
    (flush_timer : TimerFd) (chain : DescChain) :
    Option (GuestMemory × Disk × TimerFd × (Nat × Nat)) :=
  match Request.parse chain mem with
  | .ok request =>
    match request.execute disk flush_timer mem with
    | .ok (l, disk', timer', mem') =>
      match mem'.write_obj_at_addr VIRTIO_BLK_S_OK request.status_addr with
      | .ok mem'' => some (mem'', disk', timer', (chain.index, l))
      | .error _ => none
    | .error e =>
      match mem.write_obj_at_addr e.status request.status_addr with
      | .ok mem'' => some (mem'', disk, flush_timer, (chain.index, 1))
      | .error _ => none
  | .error _ => some (mem, disk, flush_timer, (chain.index, 0))

/-- The chain-processing fold of `Worker::process_queue`, collecting the
`(head index, written len)` pairs in order. -/
def Worker.process_queue_go (mem : GuestMemory) (disk : Disk)
    (flush_timer : TimerFd) :
    List DescChain → Option (GuestMemory × Disk × TimerFd × List (Nat × Nat))
  | [] => some (mem, disk, flush_timer, [])
  | c :: cs =>
    match Worker.process_chain mem disk flush_timer c with
    | none => none
    | some (m', d', t', u) =>
      match Worker.process_queue_go m' d' t' cs with
      | none => none
      | some (m'', d'', t'', us) => some (m'', d'', t'', u :: us)

/-- `Worker::process_queue` over the batch of currently available chains:
process each chain, then push every recorded `(head index, written len)`
pair into the used ring (modelled as the returned list, in order), and
report whether any entry was added.  The 256-entry `used_desc_heads`
array bounds the batch; a longer batch would index out of bounds
(modelled as `none`). -/
def Worker.process_queue (mem : GuestMemory) (disk : Disk)
    (flush_timer : TimerFd) (chains : List DescChain) :
    Option (GuestMemory × Disk × TimerFd × List (Nat × Nat) × Bool) :=
  if chains.length ≤ 256 then
    match Worker.process_queue_go mem disk flush_timer chains with
    | none => none
    | some (m', d', t', used) => some (m', d', t', used, !used.isEmpty)
  else none

/-! ## The PCI transport activation state machine (`virtio_pci_device.rs`) -/

/-- Modelled from the spec: `Queue::is_valid(mem)` lives in `queue.rs`
(outside the analysed sources); only its boolean outcome feeds the
transport's activation check, so a queue is abstracted to that bit. -/
structure Queue where
  is_valid : Bool
deriving Repr, DecidableEq

/-- Status bits (`DEVICE_ACKNOWLEDGE | DEVICE_DRIVER | DEVICE_DRIVER_OK |
DEVICE_FEATURES_OK`) and `DEVICE_FAILED`. -/
def DEVICE_READY_BITS : Nat := 1 ||| 2 ||| 4 ||| 8

/-- `DEVICE_FAILED` status bit. -/
def DEVICE_FAILED : Nat := 0x80

/-- The activation-relevant state of `VirtioPciDevice`.  `activations`
counts calls of `device.activate` (the resource hand-off), which the
source performs inside `write_bar`. -/
structure VirtioPciDevice where
  driver_status : Nat
  device_activated : Bool
  interrupt_evt : Option Unit
  mem : Option GuestMemory
  queues : List Queue
  activations : Nat

/-- `VirtioPciDevice::is_driver_ready`: the status byte equals exactly the
four ready bits and `FAILED` is clear. -/
def VirtioPciDevice.is_driver_ready (t : VirtioPciDevice) : Bool :=
  t.driver_status % 256 == DEVICE_READY_BITS &&
    (t.driver_status % 256) &&& DEVICE_FAILED == 0

/-- `VirtioPciDevice::are_queues_valid`: guest memory present and every
queue valid against it. -/
def VirtioPciDevice.are_queues_valid (t : VirtioPciDevice) : Bool :=
  t.mem.isSome && t.queues.all fun q => q.is_valid

/-- One `VirtioPciDevice::write_bar` call.  The dispatch into the common
config / ISR / device config / notify windows can change the driver
status byte and the queue registers but none of the activation
bookkeeping; it is abstracted as the arbitrary post-dispatch values `ds'`
and `qs'`.  The tail is the activation check of the source, verbatim:
when the device is not yet activated, the driver is ready and the queues
valid, `interrupt_evt.take()` and `mem.take()` drain those fields and
`device.activate` runs, setting `device_activated`. -/
def VirtioPciDevice.write_bar (t : VirtioPciDevice) (ds' : Nat)
    (qs' : List Queue) : VirtioPciDevice :=
  let t1 := { t with driver_status := ds', queues := qs' }
  if !t1.device_activated && t1.is_driver_ready && t1.are_queues_valid then
    match t1.interrupt_evt with
    | none => t1
    | some _ =>
      let t2 := { t1 with interrupt_evt := none }
      match t2.mem with
      | none => t2
      | some _ =>
        { t2 with mem := none, device_activated := true,
                  activations := t2.activations + 1 }
  else t1

/-- A sequence of `write_bar` calls, each with its post-dispatch
driver-status byte and queue registers. -/
def VirtioPciDevice.write_bar_seq (t : VirtioPciDevice) :
    List (Nat × List Queue) → VirtioPciDevice
  | [] => t
  | (ds, qs) :: ws => (t.write_bar ds qs).write_bar_seq ws

/-! ## Block activation (`block.rs`) -/

/-- `Block::activate(mem, interrupt_evt, status, queues, queue_evts)` from
`block.rs`.  `kill_evt_pair` is the outcome of creating the kill
`EventFd` pair and `spawn_ok` the outcome of `thread::Builder::spawn`;
the returned flag says whether a worker thread was spawned.  The length
guard returns before anything is touched; after it, the kill event is
stored, `disk_image.take()` drains the disk into the worker. -/
def Block.activate (b : Block) (_mem : GuestMemory) (_interrupt_evt : Unit)
    (_status : Nat) (queues : List Queue) (queue_evts : List Unit)
    (kill_evt_pair : Option Unit) (spawn_ok : Bool) : Block × Bool :=
  if queues.length != 1 || queue_evts.length != 1 then (b, false)
  else
    match kill_evt_pair with
    | none => (b, false)
    | some _ =>
      let b1 := { b with kill_evt := some () }
      match b1.disk_image with
      | none => (b1, false)
      | some _ => ({ b1 with disk_image := none }, spawn_ok)

/-! ## Concrete scenarios -/

/-- A 4096-byte all-zero disk file (spec scenario 1). -/
def disk4096 : Disk := { bytes := fun _ => 0, size := 4096, pos := 0 }

/-- 256 bytes of guest memory holding an OUT request header at 0
(type 1, sector 0), one data byte `0xAB` at 100, and a status slot at
200. -/
def cexMem : GuestMemory :=
  { size := 256
    bytes := fun a => if a = 0 then 1 else if a = 100 then 0xAB else 0 }

/-- A 512-byte all-zero disk. -/
def cexDisk : Disk := { bytes := fun _ => 0, size := 512, pos := 0 }

/-- The OUT chain `[head(read-only), data(read-only, 1 B), status
(write-only, 1 B)]` with head index 5. -/
def cexChainOut : DescChain :=
  { index := 5, head := ⟨0, 16, false⟩, rest := [⟨100, 1, false⟩, ⟨200, 1, true⟩] }

/-- A chain whose head descriptor is write-only: parsing fails. -/
def cexChainBad : DescChain :=
  { index := 7, head := ⟨0, 16, true⟩, rest := [⟨200, 1, true⟩] }

/-- A single valid queue. -/
def cexQs : List Queue := [⟨true⟩]

/-- An un-activated transport with interrupt event and guest memory
present and one valid queue. -/
def cexTransport : VirtioPciDevice :=
  { driver_status := 0, device_activated := false, interrupt_evt := some ()
    mem := some cexMem, queues := cexQs, activations := 0 }

/-- The request that `cexChainOut` parses to. -/
def cexReqOut : Request :=
  { request_type := .Out, sector := 0, data_addr := 100, data_len := 1,
    status_addr := 200, discard_write_zeroes_seg := none }

/-! ## Helper lemmas -/

/-- The serialized block configuration blob is 60 bytes long. -/
theorem configBytes_length (c : virtio_blk_config) : (configBytes c).length = 60 := by
  simp [configBytes, leBytes]

/-- A successfully parsed flush request takes its status address from a
chain descriptor that is write-only and at least one byte long. -/
theorem Request.parse_flush_status_desc {chain : DescChain} {mem : GuestMemory}
    {req : Request} (h : Request.parse_flush chain mem = .ok req) :
    ∃ d ∈ chain.rest, req.status_addr = d.addr ∧ d.write_only = true ∧ 1 ≤ d.len := by
  unfold Request.parse_flush at h
  cases hs : sector_of mem chain.head.addr with
  | error e => rw [hs] at h; simp at h
  | ok sec =>
    rw [hs] at h
    cases hr : chain.rest with
    | nil => rw [hr] at h; simp at h
    | cons status_desc tail =>
      rw [hr] at h
      simp only [] at h
      split at h
      · simp at h
      · split at h
        · simp at h
        · cases h
          exact ⟨status_desc, by simp [hr], rfl, by simp_all, by omega⟩

/-- A successfully parsed discard / write-zeroes request takes its status
address from a chain descriptor that is write-only and at least one byte
long. -/
theorem Request.parse_discard_write_zeroes_status_desc {chain : DescChain}
    {mem : GuestMemory} {t : RequestType} {req : Request}
    (h : Request.parse_discard_write_zeroes chain mem t = .ok req) :
    ∃ d ∈ chain.rest, req.status_addr = d.addr ∧ d.write_only = true ∧ 1 ≤ d.len := by
  unfold Request.parse_discard_write_zeroes at h
  cases hr : chain.rest with
  | nil => rw [hr] at h; simp at h
  | cons seg_desc tail =>
    cases ht : tail with
    | nil => rw [hr, ht] at h; simp at h
    | cons status_desc tail2 =>
      rw [hr, ht] at h
      simp only [] at h
      split at h
      · simp at h
      · split at h
        · simp at h
        · split at h
          · simp at h
          next seg hseg =>
            split at h
            · simp at h
            · split at h
              · simp at h
              · cases h
                exact ⟨status_desc, by simp [hr, ht], rfl, by simp_all, by omega⟩

/-- A successfully parsed read/write request takes its status address
from a chain descriptor that is write-only and at least one byte long. -/
theorem Request.parse_read_write_status_desc {chain : DescChain}
    {mem : GuestMemory} {t : RequestType} {req : Request}
    (h : Request.parse_read_write chain mem t = .ok req) :
    ∃ d ∈ chain.rest, req.status_addr = d.addr ∧ d.write_only = true ∧ 1 ≤ d.len := by
  unfold Request.parse_read_write at h
  cases hs : sector_of mem chain.head.addr with
  | error e => rw [hs] at h; simp at h
  | ok sec =>
    rw [hs] at h
    cases hr : chain.rest with
    | nil => rw [hr] at h; simp at h
    | cons data_desc tail =>
      cases ht : tail with
      | nil => rw [hr, ht] at h; simp at h
      | cons status_desc tail2 =>
        rw [hr, ht] at h
        simp only [] at h
        split at h
        · simp at h
        · split at h
          · simp at h
          · split at h
            · simp at h
            · split at h
              · simp at h
              · cases h
                exact ⟨status_desc, by simp [hr, ht], rfl, by simp_all, by omega⟩

/-- Inversion of `Request::parse`: a parsed request's status address comes
from a chain descriptor that is write-only and at least one byte long. -/
theorem Request.parse_status_desc {chain : DescChain} {mem : GuestMemory}
    {req : Request} (h : Request.parse chain mem = .ok req) :
    ∃ d ∈ chain.rest, req.status_addr = d.addr ∧ d.write_only = true ∧ 1 ≤ d.len := by
  unfold Request.parse at h
  split at h
  · simp at h
  · split at h
    · simp at h
    · exact Request.parse_flush_status_desc h
    · exact Request.parse_discard_write_zeroes_status_desc h
    · exact Request.parse_discard_write_zeroes_status_desc h
    · exact Request.parse_read_write_status_desc h

/-- Under the iterator's bounds invariant, the status address of a parsed
request admits a one-byte write. -/
theorem Request.parse_status_addr_valid {chain : DescChain} {mem : GuestMemory}
    {req : Request} (hv : chain.all_valid mem = true)
    (h : Request.parse chain mem = .ok req) : req.status_addr + 1 ≤ mem.size := by
  obtain ⟨d, hd, haddr, hwo, hlen⟩ := Request.parse_status_desc h
  have hdv : d.is_valid mem = true := by
    have := (Bool.and_eq_true _ _).mp hv
    exact (List.all_eq_true.mp this.2) d hd
  have : d.addr + d.len ≤ mem.size := of_decide_eq_true hdv
  omega

/-- The discard / write-zeroes arm of execution reports length 0 and
leaves the timer and guest memory untouched on success. -/
theorem Request.execute_discard_write_zeroes_shape {req : Request}
    {disk0 : Disk} {timer : TimerFd} {mem : GuestMemory} {l : Nat} {d' : Disk}
    {t' : TimerFd} {m' : GuestMemory}
    (h : req.execute_discard_write_zeroes disk0 timer mem = .ok (l, d', t', m')) :
    l = 0 ∧ t' = timer ∧ m' = mem := by
  simp only [Request.execute_discard_write_zeroes] at h
  split at h
  · cases h; exact ⟨rfl, rfl, rfl⟩
  · split at h <;> split at h <;>
      first
      | (cases h; exact ⟨rfl, rfl, rfl⟩)
      | cases h

theorem Request.execute_preserves_mem_size {req : Request} {disk : Disk}
    {timer : TimerFd} {mem : GuestMemory} {l : Nat} {d' : Disk} {t' : TimerFd}
    {m' : GuestMemory} (h : req.execute disk timer mem = .ok (l, d', t', m')) :
    m'.size = mem.size := by
  simp only [Request.execute] at h
  split at h
  · split at h
    · cases h; rfl
    · cases h
  · split at h
    · cases h; rfl
    · cases h
  · obtain ⟨-, -, rfl⟩ := Request.execute_discard_write_zeroes_shape h
    rfl
  · obtain ⟨-, -, rfl⟩ := Request.execute_discard_write_zeroes_shape h
    rfl
  · cases h; rfl
  · cases h

theorem Request.execute_out_flush_len_zero {req : Request} {disk : Disk}
    {timer : TimerFd} {mem : GuestMemory} {l : Nat} {d' : Disk} {t' : TimerFd}
    {m' : GuestMemory}
    (ht : req.request_type = .Out ∨ req.request_type = .Flush)
    (h : req.execute disk timer mem = .ok (l, d', t', m')) : l = 0 := by
  simp only [Request.execute] at h
  split at h
  next heq => rcases ht with ht | ht <;> rw [ht] at heq <;> cases heq
  · split at h
    · cases h; rfl
    · cases h
  next heq => rcases ht with ht | ht <;> rw [ht] at heq <;> cases heq
  next heq => rcases ht with ht | ht <;> rw [ht] at heq <;> cases heq
  · cases h; rfl
  · cases h

/-! ## Claim theorems -/

/-- C4: for every descriptor chain whose parse fails, the worker records a
used-ring entry with written length 0 for that chain and performs no write
to guest memory (and no disk or timer change); the singleton-batch
`process_queue` publishes exactly that entry. -/
theorem c4_parse_error_len_zero_no_write (mem : GuestMemory) (disk : Disk)
    (timer : TimerFd) (chain : DescChain) (e : ParseError)
    (hp : Request.parse chain mem = .error e) :
    Worker.process_chain mem disk timer chain =
      some (mem, disk, timer, (chain.index, 0)) ∧
    Worker.process_queue mem disk timer [chain] =
      some (mem, disk, timer, [(chain.index, 0)], true) := by
  have h1 : Worker.process_chain mem disk timer chain =
      some (mem, disk, timer, (chain.index, 0)) := by
    simp only [Worker.process_chain, hp]
  refine ⟨h1, ?_⟩
  simp [Worker.process_queue, Worker.process_queue_go, h1]

/-- C4 witness: a chain with a write-only head descriptor parses to an
error, and processing it returns memory, disk and timer unchanged with a
written-length-0 entry. -/
theorem c4_witness :
    Request.parse cexChainBad cexMem = .error .UnexpectedWriteOnlyDescriptor ∧
    (Worker.process_chain cexMem cexDisk ⟨false⟩ cexChainBad =
       some (cexMem, cexDisk, ⟨false⟩, (cexChainBad.index, 0)) ∧
     Worker.process_queue cexMem cexDisk ⟨false⟩ [cexChainBad] =
       some (cexMem, cexDisk, ⟨false⟩, [(cexChainBad.index, 0)], true)) :=
  ⟨rfl,
    c4_parse_error_len_zero_no_write cexMem cexDisk ⟨false⟩ cexChainBad
      .UnexpectedWriteOnlyDescriptor rfl⟩

/-- C3: processing one descriptor chain never panics: under the
iterator's bounds invariant the loop body always completes, in particular
the status-byte write performed after a successful parse cannot fail. -/
theorem c3_process_chain_never_panics (mem : GuestMemory) (disk : Disk)
    (timer : TimerFd) (chain : DescChain)
    (hv : chain.all_valid mem = true) :
    (Worker.process_chain mem disk timer chain).isSome = true := by
  cases hp : Request.parse chain mem with
  | error e => simp [Worker.process_chain, hp]
  | ok req =>
    have hst := Request.parse_status_addr_valid hv hp
    cases hx : req.execute disk timer mem with
    | error e =>
      simp [Worker.process_chain, hp, hx, GuestMemory.write_obj_at_addr, hst]
    | ok v =>
      obtain ⟨l, d', t', m'⟩ := v
      have hsz : m'.size = mem.size := Request.execute_preserves_mem_size hx
      simp [Worker.process_chain, hp, hx, GuestMemory.write_obj_at_addr, hsz, hst]

/-- C3 witness: the concrete OUT chain satisfies the bounds invariant and
is processed to completion. -/
theorem c3_witness :
    cexChainOut.all_valid cexMem = true ∧
    (Worker.process_chain cexMem cexDisk ⟨false⟩ cexChainOut).isSome = true :=
  ⟨by decide,
    c3_process_chain_never_panics cexMem cexDisk ⟨false⟩ cexChainOut (by decide)⟩

/-- C1 counterexample: the concrete OUT chain parses to an OUT request
and executes successfully (the data byte 0xAB reaches the disk and the
status byte is written as OK(0)), yet the used-ring entry records written
length 0, not 1 as the claim states. -/
theorem c1_out_reports_one_byte_cex :
    (Request.parse cexChainOut cexMem).toOption.map Request.request_type =
      some RequestType.Out ∧
    (Worker.process_chain cexMem cexDisk ⟨false⟩ cexChainOut).map
      (fun r => r.2.2.2) = some (5, 0) ∧
    (Worker.process_chain cexMem cexDisk ⟨false⟩ cexChainOut).map
      (fun r => r.2.1.bytes 0) = some 0xAB ∧
    (Worker.process_chain cexMem cexDisk ⟨false⟩ cexChainOut).map
      (fun r => r.1.bytes 200) = some 0 ∧
    ((5, 0) : Nat × Nat) ≠ (5, 1) := by decide

/-- C1 (amended): for every OUT or FLUSH request that executes
successfully, the worker writes status OK(0) to the status descriptor's
address and reports a written length of 0 (not 1) in the used-ring entry
for that chain: `Request::execute` falls through to `Ok(0)` for OUT and
FLUSH, and `process_queue` uses that value as the used length. -/
theorem c1_out_flush_success_status_ok_len_zero (mem : GuestMemory)
    (disk : Disk) (timer : TimerFd) (chain : DescChain) (req : Request)
    (l : Nat) (d' : Disk) (t' : TimerFd) (m' : GuestMemory)
    (hv : chain.all_valid mem = true)
    (hp : Request.parse chain mem = .ok req)
    (ht : req.request_type = .Out ∨ req.request_type = .Flush)
    (hx : req.execute disk timer mem = .ok (l, d', t', m')) :
    l = 0 ∧
    ∃ m'', m'.write_obj_at_addr VIRTIO_BLK_S_OK req.status_addr = .ok m'' ∧
      m''.bytes req.status_addr = 0 ∧
      Worker.process_chain mem disk timer chain =
        some (m'', d', t', (chain.index, 0)) := by
  have hl := Request.execute_out_flush_len_zero ht hx
  subst hl
  have hst := Request.parse_status_addr_valid hv hp
  have hsz := Request.execute_preserves_mem_size hx
  have hw : m'.write_obj_at_addr VIRTIO_BLK_S_OK req.status_addr =
      .ok { m' with bytes := fun a =>
              if a = req.status_addr then VIRTIO_BLK_S_OK % 256
              else m'.bytes a } := by
    unfold GuestMemory.write_obj_at_addr
    rw [if_pos (by omega)]
  refine ⟨rfl, _, hw, ?_, ?_⟩
  · simp [VIRTIO_BLK_S_OK]
  · simp only [Worker.process_chain, hp, hx, hw]

/-- C1 witness: the amended statement at the concrete OUT chain. -/
theorem c1_amended_witness :
    cexChainOut.all_valid cexMem = true ∧
    Request.parse cexChainOut cexMem = .ok cexReqOut ∧
    (cexReqOut.request_type = .Out ∨ cexReqOut.request_type = .Flush) ∧
    (0 = 0 ∧ ∃ m'',
      cexMem.write_obj_at_addr VIRTIO_BLK_S_OK cexReqOut.status_addr =
        .ok m'' ∧
      m''.bytes cexReqOut.status_addr = 0 ∧
      Worker.process_chain cexMem cexDisk ⟨false⟩ cexChainOut =
        some (m'', (cexDisk.seekStart (0 * 512 % 2 ^ 64)).writeFrom cexMem 100 1,
          ⟨true⟩, (cexChainOut.index, 0))) :=
  ⟨by decide, rfl, Or.inl rfl,
    c1_out_flush_success_status_ok_len_zero cexMem cexDisk ⟨false⟩ cexChainOut
      cexReqOut 0 _ ⟨true⟩ cexMem (by decide) rfl (Or.inl rfl) rfl⟩

/-- C2: evaluation of the ISR-read arm at the failing input.  With the
interrupt-status word at 1, an ISR read returns 1 but leaves the word at
1, so a second immediate ISR read returns 1, not 0: the source performs a
plain `load` instead of a read-to-clear swap. -/
theorem c2_isr_read_not_read_to_clear :
    VirtioPciDevice.read_bar_isr 1 [0] = ([1], 1) ∧
    (VirtioPciDevice.read_bar_isr
      (VirtioPciDevice.read_bar_isr 1 [0]).2 [0]).1 = [1] ∧
    ([1] : List Nat) ≠ [0] := by decide

/-- Stepping `write_bar` preserves the activation invariant: either not
yet activated with zero activations, or activated with at most one. -/
theorem VirtioPciDevice.write_bar_step_invariant (t : VirtioPciDevice)
    (ds : Nat) (qs : List Queue)
    (h : (t.device_activated = false ∧ t.activations = 0) ∨
         (t.device_activated = true ∧ t.activations ≤ 1)) :
    ((t.write_bar ds qs).device_activated = false ∧
       (t.write_bar ds qs).activations = 0) ∨
    ((t.write_bar ds qs).device_activated = true ∧
       (t.write_bar ds qs).activations ≤ 1) := by
  simp only [VirtioPciDevice.write_bar]
  split
  · cases hie : t.interrupt_evt with
    | none => simpa [hie] using h
    | some e =>
      cases hm : t.mem with
      | none => simpa [hie, hm] using h
      | some m =>
        simp only [hie, hm]
        rcases h with ⟨-, h0⟩ | ⟨ha, -⟩
        · right; simp [h0]
        · rename_i hcond
          simp [ha] at hcond
  · simpa using h

/-- The activation invariant is preserved along any write sequence. -/
theorem VirtioPciDevice.write_bar_seq_invariant :
    ∀ (ws : List (Nat × List Queue)) (t : VirtioPciDevice),
    ((t.device_activated = false ∧ t.activations = 0) ∨
     (t.device_activated = true ∧ t.activations ≤ 1)) →
    (((t.write_bar_seq ws).device_activated = false ∧
        (t.write_bar_seq ws).activations = 0) ∨
     ((t.write_bar_seq ws).device_activated = true ∧
        (t.write_bar_seq ws).activations ≤ 1))
  | [], _, h => h
  | (ds, qs) :: ws, t, h =>
    VirtioPciDevice.write_bar_seq_invariant ws (t.write_bar ds qs)
      (VirtioPciDevice.write_bar_step_invariant t ds qs h)

/-- C5: the transport activates its back-end at most once.  A BAR write
whose post-dispatch state satisfies the activation condition (status byte
exactly ACKNOWLEDGE|DRIVER|DRIVER_OK|FEATURES_OK with FAILED clear, all
queues valid, guest memory and interrupt event present) performs the
activation and sets `device_activated`; any write landing on an activated
transport performs no activation; and along every write sequence from a
fresh transport at most one activation ever happens. -/
theorem c5_activate_at_most_once :
    (∀ (t : VirtioPciDevice) (ds : Nat) (qs : List Queue),
      t.device_activated = false →
      ({ t with driver_status := ds, queues := qs } :
          VirtioPciDevice).is_driver_ready = true →
      ({ t with driver_status := ds, queues := qs } :
          VirtioPciDevice).are_queues_valid = true →
      t.interrupt_evt.isSome = true →
      (t.write_bar ds qs).device_activated = true ∧
        (t.write_bar ds qs).activations = t.activations + 1) ∧
    (∀ (t : VirtioPciDevice) (ds : Nat) (qs : List Queue),
      t.device_activated = true →
      (t.write_bar ds qs).device_activated = true ∧
        (t.write_bar ds qs).activations = t.activations) ∧
    (∀ (t : VirtioPciDevice) (ws : List (Nat × List Queue)),
      t.device_activated = false → t.activations = 0 →
      (t.write_bar_seq ws).activations ≤ 1) := by
  refine ⟨?_, ?_, ?_⟩
  · intro t ds qs ha hr hq hie
    cases hie2 : t.interrupt_evt with
    | none => rw [hie2] at hie; cases hie
    | some e =>
      cases hm2 : t.mem with
      | none =>
        unfold VirtioPciDevice.are_queues_valid at hq
        simp [hm2] at hq
      | some m =>
        simp only [ha, hie2, hm2] at hr hq
        simp [VirtioPciDevice.write_bar, ha, hie2, hm2, hr, hq]
  · intro t ds qs ha
    simp [VirtioPciDevice.write_bar, ha]
  · intro t ws ha h0
    rcases VirtioPciDevice.write_bar_seq_invariant ws t (Or.inl ⟨ha, h0⟩) with
      ⟨-, h⟩ | ⟨-, h⟩ <;> omega

/-- C5 witness: a concrete rising edge activates, and repeating the same
status-byte write performs no second activation. -/
theorem c5_witness :
    cexTransport.device_activated = false ∧
    ({ cexTransport with driver_status := 15, queues := cexQs } :
        VirtioPciDevice).is_driver_ready = true ∧
    ({ cexTransport with driver_status := 15, queues := cexQs } :
        VirtioPciDevice).are_queues_valid = true ∧
    cexTransport.interrupt_evt.isSome = true ∧
    ((cexTransport.write_bar 15 cexQs).device_activated = true ∧
      (cexTransport.write_bar 15 cexQs).activations =
        cexTransport.activations + 1) ∧
    (cexTransport.write_bar_seq [(15, cexQs), (15, cexQs)]).activations ≤ 1 :=
  ⟨rfl, rfl, rfl, rfl,
    c5_activate_at_most_once.1 cexTransport 15 cexQs rfl rfl rfl rfl,
    c5_activate_at_most_once.2.2 cexTransport [(15, cexQs), (15, cexQs)] rfl rfl⟩

/-- C6: the available-features bitmap always contains FLUSH (bit 9);
read-only devices add RO (bit 5) and exclude DISCARD (13) and
WRITE_ZEROES (14); writable devices add DISCARD and WRITE_ZEROES and
exclude RO; hence `features(0)` is 0x220 read-only and 0x6200 writable. -/
theorem c6_block_features : ∀ (disk : Disk) (ro : Bool),
    Nat.testBit (Block.new disk ro).avail_features 9 = true ∧
    Nat.testBit (Block.new disk ro).avail_features 5 = ro ∧
    Nat.testBit (Block.new disk ro).avail_features 13 = !ro ∧
    Nat.testBit (Block.new disk ro).avail_features 14 = !ro ∧
    (Block.new disk ro).features 0 = (if ro then 0x220 else 0x6200) := by
  intro disk ro
  cases ro <;> simp [Block.new, Block.features] <;> decide

/-- C7: the capacity field of the block configuration is the disk size
divided by 512, truncating; for a 4096-byte disk, `read_config(0, 4)`
returns the little-endian bytes [0x08, 0x00, 0x00, 0x00]. -/
theorem c7_capacity_floor_div :
    (∀ (disk : Disk) (ro : Bool),
      (Block.new disk ro).config_space.capacity = disk.size / 512) ∧
    (Block.new disk4096 true).read_config 0 [0, 0, 0, 0] = [8, 0, 0, 0] := by
  constructor
  · intro disk ro
    simp [Block.new, build_config_space, SECTOR_SHIFT,
      Nat.shiftRight_eq_div_pow]
  · decide

/-- C8 counterexample: a 5-byte read at offset 58 of the 60-byte blob
overwrites only the 2 in-range bytes and leaves the caller's buffer bytes
7 beyond the end of the struct untouched, refuting zero-extension. -/
theorem c8_zero_extension_fails_cex :
    (Block.new disk4096 true).read_config 58 [7, 7, 7, 7, 7] = [0, 0, 7, 7, 7] ∧
    ¬ ((Block.new disk4096 true).read_config 58 [7, 7, 7, 7, 7] =
        [0, 0, 0, 0, 0]) := by decide

/-- C8 (amended): for `offset + len ≤ sizeof(config)` the read returns
exactly the blob bytes `[offset, offset+len)` (round trip); for a request
extending past the end of the struct the in-range prefix is copied and
the buffer bytes beyond the struct's end are left unmodified (not
zeroed), the buffer length never changing. -/
theorem c8_read_config_roundtrip_frame (b : Block) (offset : Nat)
    (data : List Nat) (hov : offset + data.length < 2 ^ 64) :
    (offset + data.length ≤ 60 →
      b.read_config offset data =
        ((configBytes b.config_space).drop offset).take data.length) ∧
    (b.read_config offset data).length = data.length ∧
    (b.read_config offset data).drop (min data.length (60 - offset)) =
      data.drop (min data.length (60 - offset)) := by
  by_cases hoff : offset ≥ 60
  · have hre : b.read_config offset data = data := by
      simp [Block.read_config, hoff]
    have hmin : min data.length (60 - offset) = 0 := by omega
    refine ⟨?_, by rw [hre], by rw [hre]⟩
    intro hle
    have hlen0 : data.length = 0 := by omega
    have hdata : data = [] := List.eq_nil_of_length_eq_zero hlen0
    subst hdata
    simp [hre]
  · have hre : b.read_config offset data =
        ((configBytes b.config_space).drop offset).take
            (min (offset + data.length) 60 - offset) ++
          data.drop (min (offset + data.length) 60 - offset) := by
      simp [Block.read_config, hoff, hov]
      intro hcontra
      exact absurd hcontra (by omega)
    refine ⟨?_, ?_, ?_⟩
    · intro hle
      have he : min (offset + data.length) 60 = offset + data.length :=
        min_eq_left hle
      have he2 : offset + data.length - offset = data.length := by omega
      rw [hre, he, he2, List.drop_length, List.append_nil]
    · rw [hre]
      simp only [List.length_append, List.length_take, List.length_drop,
        configBytes_length]
      omega
    · have hk : min (offset + data.length) 60 - offset =
          min data.length (60 - offset) := by omega
      rw [hre, hk]
      have hS : (((configBytes b.config_space).drop offset).take
          (min data.length (60 - offset))).length =
            min data.length (60 - offset) := by
        simp only [List.length_take, List.length_drop, configBytes_length]
        omega
      rw [List.drop_left' hS]

/-- C8 witness: a 4-byte read at offset 3 round-trips the blob bytes. -/
theorem c8_witness :
    (3 + 4 < 2 ^ 64) ∧
    ((3 + 4 ≤ 60 →
      (Block.new disk4096 true).read_config 3 [0, 0, 0, 0] =
        ((configBytes (Block.new disk4096 true).config_space).drop 3).take 4) ∧
    ((Block.new disk4096 true).read_config 3 [0, 0, 0, 0]).length = 4 ∧
    ((Block.new disk4096 true).read_config 3 [0, 0, 0, 0]).drop (min 4 (60 - 3)) =
      ([0, 0, 0, 0] : List Nat).drop (min 4 (60 - 3))) :=
  ⟨by decide, c8_read_config_roundtrip_frame (Block.new disk4096 true) 3
    [0, 0, 0, 0] (by decide)⟩

/-- C9: `allocate_irq` returns the current IRQ and advances the counter
by one; it fails exactly when the increment would overflow a u32; and `k`
successive calls from first IRQ `f` return `f, f+1, ..., f+k-1`. -/
theorem c9_allocate_irq_spec :
    (∀ n : Nat, n + 1 < 2 ^ 32 →
      SystemAllocator.allocate_irq ⟨n⟩ = some (n, ⟨n + 1⟩)) ∧
    (∀ n : Nat, n < 2 ^ 32 →
      (SystemAllocator.allocate_irq ⟨n⟩ = none ↔ n = 2 ^ 32 - 1)) ∧
    (∀ (f k : Nat), f + k < 2 ^ 32 →
      SystemAllocator.allocate_irq_n ⟨f⟩ k =
        some (List.range' f k, ⟨f + k⟩)) := by
  refine ⟨?_, ?_, ?_⟩
  · intro n h
    unfold SystemAllocator.allocate_irq
    rw [if_pos h]
  · intro n h
    constructor
    · intro hn
      unfold SystemAllocator.allocate_irq at hn
      by_cases hc : n + 1 < 2 ^ 32
      · rw [if_pos hc] at hn; cases hn
      · omega
    · intro hn
      subst hn
      decide
  · intro f k
    induction k generalizing f with
    | zero =>
      intro h
      simp [SystemAllocator.allocate_irq_n, List.range']
    | succ k ih =>
      intro h
      have h1 : SystemAllocator.allocate_irq ⟨f⟩ = some (f, ⟨f + 1⟩) := by
        unfold SystemAllocator.allocate_irq
        rw [if_pos (by omega : f + 1 < 2 ^ 32)]
      simp only [SystemAllocator.allocate_irq_n, h1,
        ih (f + 1) (by omega : f + 1 + k < 2 ^ 32)]
      rw [List.range'_succ]
      have hfk : f + 1 + k = f + (k + 1) := by omega
      rw [hfk]

/-- C9 witness: three calls from first IRQ 5 return 5, 6, 7. -/
theorem c9_witness :
    (5 + 1 < 2 ^ 32 ∧
      SystemAllocator.allocate_irq ⟨5⟩ = some (5, ⟨5 + 1⟩)) ∧
    (5 + 3 < 2 ^ 32 ∧
      SystemAllocator.allocate_irq_n ⟨5⟩ 3 = some (List.range' 5 3, ⟨5 + 3⟩)) :=
  ⟨⟨by decide, c9_allocate_irq_spec.1 5 (by decide)⟩,
   ⟨by decide, c9_allocate_irq_spec.2.2 5 3 (by decide)⟩⟩

/-- C10: when the queues or queue-events vector does not have length
exactly 1, `Block::activate` returns immediately with the back-end
unchanged (disk handle still present, kill event untouched) and spawns
no worker. -/
theorem c10_activate_length_guard (b : Block) (mem : GuestMemory)
    (ie : Unit) (st : Nat) (queues : List Queue) (queue_evts : List Unit)
    (kp : Option Unit) (sp : Bool)
    (h : queues.length ≠ 1 ∨ queue_evts.length ≠ 1) :
    b.activate mem ie st queues queue_evts kp sp = (b, false) := by
  have hc : (queues.length != 1 || queue_evts.length != 1) = true := by
    rcases h with h | h <;> simp [h]
  simp [Block.activate, hc]

/-- C10 witness: activation with an empty queues vector is a no-op. -/
theorem c10_witness :
    (([] : List Queue).length ≠ 1 ∨ ([()] : List Unit).length ≠ 1) ∧
    Block.activate (Block.new disk4096 true) cexMem () 0 [] [()] none false =
      (Block.new disk4096 true, false) :=
  ⟨Or.inl (by decide),
    c10_activate_length_guard (Block.new disk4096 true) cexMem () 0 [] [()]
      none false (Or.inl (by decide))⟩
